import Mathlib

/-!
Shallow embedding of the calm-cyber-zone classification and moderation core:
`src/ml-service/predictor_multilingual.py` (class `MultilingualTextPredictor`),
`src/ml-service/main.py` (endpoint `analyze_text`), and
`src/discord-bot/bot.py` (moderation policy helpers).

Scores are embedded as rationals; the external neural model, the statistical
language detector and the sentiment model are opaque collaborators, so their
outputs enter the embedded functions as explicit parameters (with `Option` /
a dedicated outcome type standing for unavailability and failure).
-/

namespace CalmCyberZone

/-- English threat keywords (`predictor_multilingual.py` lines 29-34). -/
def threat_keywords_en : List String :=
  ["kill", "murder", "die", "death", "hurt", "harm", "attack",
   "destroy", "bomb", "shoot", "stab", "rape", "suicide",
   "threat", "threaten", "violence", "beat up", "beat you",
   "end you", "ruin you", "destroy you", "get you", "revenge"]

/-- Kannada threat keywords (`predictor_multilingual.py` lines 37-44). -/
def threat_keywords_kn : List String :=
  ["kollu", "kol", "sathisu", "sathi", "mare", "chakke", "chakka",
   "nayi", "huli", "puli", "thika muchkond", "thika muchko",
   "ಕೊಲ್ಲು", "ಕೊಲೆ", "ಸಾಯು", "ಸಾಯಿಸು", "ಮಾರು", "ಚಕ್ಕೆ", "ಚಕ್ಕಾ",
   "ನಾಯಿ", "ಹುಲಿ", "ಪುಲಿ", "ತಿಕ ಮುಚ್ಕೊಂಡ್", "ತಿಕ ಮುಚ್ಕೊ"]

/-- Hindi threat keywords (`predictor_multilingual.py` lines 47-57; the
source list contains `maarunga` twice, kept as is). -/
def threat_keywords_hi : List String :=
  ["maar", "maarunga", "maarunga", "mar", "marunga", "mar ja",
   "mar dunga", "maar dunga", "khatam", "khatam kar", "khatam kar dunga",
   "teri", "tujhe", "tu", "teri maa", "behen", "behenchod", "madarchod",
   "chutiya", "bhosdike", "lund", "gaand", "gaandu",
   "मार", "मारूंगा", "मार दूंगा", "मर", "मर जा", "खत्म", "खत्म कर",
   "तेरी", "तुझे", "तू", "तेरी माँ", "बहन", "बहनचोद", "मादरचोद",
   "चूतिया", "भोसड़ीके", "लुंड", "गांड", "गांडू"]

/-- Combined lexicon (`predictor_multilingual.py` lines 60-64). -/
def threat_keywords : List String :=
  threat_keywords_en ++ threat_keywords_kn ++ threat_keywords_hi

/-- Whether the first character list starts the second. -/
def startsWithChars : List Char → List Char → Bool
  | [], _ => true
  | _ :: _, [] => false
  | a :: as, b :: bs => a == b && startsWithChars as bs

/-- Substring containment on character lists (needle, haystack). -/
def containsChars (n : List Char) : List Char → Bool
  | [] => n.isEmpty
  | c :: t => startsWithChars n (c :: t) || containsChars n t

/-- Python's `str.lower()` (on the character list, ASCII case folding —
every string this development lowercases is ASCII or caseless script). -/
def strLower (s : String) : String :=
  String.mk (s.toList.map Char.toLower)

/-- Python's `str.strip()`: drop leading and trailing whitespace. -/
def pyStrip (s : String) : String :=
  String.mk (((s.toList.dropWhile Char.isWhitespace).reverse.dropWhile
    Char.isWhitespace).reverse)

/-- Python's `keyword.lower() in text.lower()`: case-insensitive substring
containment, checked on the character lists. -/
def kwMatch (text kw : String) : Bool :=
  containsChars (strLower kw).toList (strLower text).toList

/-- `sum(1 for keyword in toxic_keywords if keyword.lower() in text_lower)` —
the number of combined-lexicon keywords contained in the text, as computed in
both `_check_keyword_toxicity` (line 304) and `_check_threat_keywords`
(line 319), which iterate over the same list `self.threat_keywords`. -/
def countMatches (text : String) : Nat :=
  (threat_keywords.filter (fun k => kwMatch text k)).length

/-- Python's builtin `min` on two numbers. -/
def pymin (a b : ℚ) : ℚ := if a ≤ b then a else b

/-- Python's builtin `max` on two numbers. -/
def pymax (a b : ℚ) : ℚ := if b ≤ a then a else b

/-- `_check_keyword_toxicity` (`predictor_multilingual.py` lines 296-312). -/
def check_keyword_toxicity (text : String) : ℚ :=
  let nMatches := countMatches text
  if nMatches > 0 then pymin (0.5 + (nMatches : ℚ) * 0.1) 0.9 else 0

/-- `_check_threat_keywords` (`predictor_multilingual.py` lines 314-324). -/
def check_threat_keywords (text : String) : ℚ :=
  let threat_matches := countMatches text
  if threat_matches > 0 then pymin (0.6 + (threat_matches : ℚ) * 0.15) 1 else 0

/-- `re.search(r'[a-zA-Z]', text)` — text contains a Latin letter. -/
def has_english (t : String) : Bool :=
  t.toList.any fun c =>
    (decide (65 ≤ c.toNat) && decide (c.toNat ≤ 90)) ||
    (decide (97 ≤ c.toNat) && decide (c.toNat ≤ 122))

/-- `re.search(r'[ಀ-೿]', text)` — text contains a Kannada-block
character. -/
def has_kannada (t : String) : Bool :=
  t.toList.any fun c => decide (0x0C80 ≤ c.toNat) && decide (c.toNat ≤ 0x0CFF)

/-- `re.search(r'[ऀ-ॿ]', text)` — text contains a Devanagari-block
character. -/
def has_hindi (t : String) : Bool :=
  t.toList.any fun c => decide (0x0900 ≤ c.toNat) && decide (c.toNat ≤ 0x097F)

/-- Result record of `detect_language` (`predictor_multilingual.py`
lines 122-188). -/
structure LangInfo where
  language : String
  confidence : ℚ
  primary_language : String
  mixed_languages : List String
deriving DecidableEq, Repr

/-- Outcome of the call to the external statistical detector
`langdetect.detect`: a language code, a `LangDetectException`, or any other
exception (the two `except` arms of `detect_language`). -/
inductive DetectOutcome where
  | ok (code : String)
  | langDetectError
  | otherError
deriving DecidableEq, Repr

/-- `detect_language` (`predictor_multilingual.py` lines 122-188), with the
external `langdetect.detect` call's outcome passed in as a parameter. -/
def detect_language (outcome : DetectOutcome) (text : String) : LangInfo :=
  match outcome with
  | .ok code =>
    let primary_lang := if code = "en" ∨ code = "kn" ∨ code = "hi" then code else "unknown"
    let he := has_english text
    let hk := has_kannada text
    let hh := has_hindi text
    let languages_present :=
      (if he then ["en"] else []) ++ (if hk then ["kn"] else []) ++ (if hh then ["hi"] else [])
    if languages_present.length > 1 then
      { language := "mixed", confidence := 0.8, primary_language := primary_lang,
        mixed_languages := languages_present }
    else
      let detected := if primary_lang ≠ "unknown" then primary_lang
                      else languages_present.headD "unknown"
      { language := detected, confidence := 0.8, primary_language := primary_lang,
        mixed_languages := [detected] }
  | .langDetectError =>
    let hk := has_kannada text
    let hh := has_hindi text
    let he := has_english text
    if hk && he then
      { language := "mixed", confidence := 0.7, primary_language := "kn",
        mixed_languages := ["en", "kn"] }
    else if hh && he then
      { language := "mixed", confidence := 0.7, primary_language := "hi",
        mixed_languages := ["en", "hi"] }
    else if hk then
      { language := "kn", confidence := 0.7, primary_language := "kn",
        mixed_languages := ["kn"] }
    else if hh then
      { language := "hi", confidence := 0.7, primary_language := "hi",
        mixed_languages := ["hi"] }
    else if he then
      { language := "en", confidence := 0.7, primary_language := "en",
        mixed_languages := ["en"] }
    else
      { language := "unknown", confidence := 0.5, primary_language := "unknown",
        mixed_languages := [] }
  | .otherError =>
    { language := "unknown", confidence := 0.0, primary_language := "unknown",
      mixed_languages := [] }

/-- The six-entry label dictionary produced by `predict_toxicity`. -/
structure LabelProbs where
  toxic : ℚ
  severe_toxic : ℚ
  obscene : ℚ
  threat : ℚ
  insult : ℚ
  identity_hate : ℚ
deriving DecidableEq, Repr

/-- `max(label_probs.values())` over the six entries. -/
def labelMax (lp : LabelProbs) : ℚ :=
  pymax lp.toxic (pymax lp.severe_toxic (pymax lp.obscene
    (pymax lp.threat (pymax lp.insult lp.identity_hate))))

/-- `prob_scores.max()` (numpy max of the score vector; the caller only uses
it on non-empty vectors). -/
def maxListQ : List ℚ → ℚ
  | [] => 0
  | [x] => x
  | x :: y :: t => pymax x (maxListQ (y :: t))

/-- The language-conditioned combination of model and keyword toxicity
(`predict_toxicity`, lines 244-257). -/
def fuse (detected_lang : String) (model_toxicity keyword_toxicity : ℚ) : ℚ :=
  if detected_lang = "kn" ∨ detected_lang = "hi" then
    if model_toxicity > 0 then 0.4 * model_toxicity + 0.6 * keyword_toxicity
    else keyword_toxicity
  else
    if model_toxicity > 0 then 0.7 * model_toxicity + 0.3 * keyword_toxicity
    else keyword_toxicity

/-- The guard at line 206 deciding whether the English neural model is run:
`has_english or language_info is None or
 language_info.get('language') in ['en', 'mixed', 'unknown']`. -/
def modelGate (text : String) (langInfo : Option LangInfo) : Bool :=
  has_english text || langInfo.isNone ||
    (match langInfo with
     | none => false
     | some li => li.language = "en" || li.language = "mixed" || li.language = "unknown")

/-- `label_probs_model` (lines 229-240): the per-label model probabilities,
either read off a ≥6-entry score vector or derived from the overall model
toxicity. -/
def modelLabels (scores : List ℚ) (model_toxicity threat_prob : ℚ) : LabelProbs :=
  if scores.length ≥ 6 then
    { toxic := scores.getD 0 0, severe_toxic := scores.getD 1 0,
      obscene := scores.getD 2 0, threat := scores.getD 3 0,
      insult := scores.getD 4 0, identity_hate := scores.getD 5 0 }
  else
    { toxic := model_toxicity
      severe_toxic := if model_toxicity > 0.7 then model_toxicity * 0.8 else 0
      obscene := if model_toxicity > 0.5 then model_toxicity * 0.6 else 0
      threat := pymax (model_toxicity * 0.7) threat_prob
      insult := if model_toxicity > 0.4 then model_toxicity * 0.7 else 0
      identity_hate := if model_toxicity > 0.6 then model_toxicity * 0.5 else 0 }

/-- The label dictionary of the keyword-only fallback (lines 285-292). -/
def fallbackLabels (combined_toxicity threat_prob : ℚ) : LabelProbs :=
  { toxic := combined_toxicity
    severe_toxic := if combined_toxicity > 0.7 then combined_toxicity * 0.8 else 0
    obscene := if combined_toxicity > 0.5 then combined_toxicity * 0.6 else 0
    threat := threat_prob
    insult := if combined_toxicity > 0.4 then combined_toxicity * 0.7 else 0
    identity_hate := if combined_toxicity > 0.6 then combined_toxicity * 0.5 else 0 }

/-- `predict_toxicity` (`predictor_multilingual.py` lines 190-294).
`neural = some scores` stands for a loaded toxicity model whose sigmoid
score vector on this text is `scores`; `neural = none` stands for the model
being absent.  An exception during inference (including `prob_scores.max()`
on an empty vector) falls through to the keyword-only fallback, exactly as
the `except` arm at line 279 does. -/
def predict_toxicity (text : String) (langInfo : Option LangInfo)
    (neural : Option (List ℚ)) : ℚ × LabelProbs :=
  let keyword_toxicity := check_keyword_toxicity text
  let threat_prob := check_threat_keywords text
  let fallback :=
    let combined_toxicity := keyword_toxicity
    (pymin combined_toxicity 1, fallbackLabels combined_toxicity threat_prob)
  match neural with
  | none => fallback
  | some scores =>
    if modelGate text langInfo && !scores.isEmpty then
      let model_toxicity := maxListQ scores
      let label_probs_model := modelLabels scores model_toxicity threat_prob
      let detected_lang := match langInfo with
                           | some li => li.language
                           | none => "unknown"
      let combined_toxicity := fuse detected_lang model_toxicity keyword_toxicity
      let threat_prob2 := pymax threat_prob label_probs_model.threat
      let label_probs : LabelProbs :=
        { toxic := combined_toxicity
          severe_toxic := pymax (if combined_toxicity > 0.7 then combined_toxicity * 0.8 else 0)
                                label_probs_model.severe_toxic
          obscene := pymax (if combined_toxicity > 0.5 then combined_toxicity * 0.6 else 0)
                           label_probs_model.obscene
          threat := threat_prob2
          insult := pymax (if combined_toxicity > 0.4 then combined_toxicity * 0.7 else 0)
                          label_probs_model.insult
          identity_hate := pymax (if combined_toxicity > 0.6 then combined_toxicity * 0.5 else 0)
                                 label_probs_model.identity_hate }
      let overall_toxicity := pymax combined_toxicity (labelMax label_probs)
      (pymin overall_toxicity 1, label_probs)
    else fallback

/-- `detect_threat` (`predictor_multilingual.py` lines 367-389). -/
def detect_threat (text : String) (toxicity_score : ℚ)
    (threat_prob : Option ℚ) : Bool :=
  let keyword_match := threat_keywords.any fun k => kwMatch text k
  let model_threat := match threat_prob with
                      | none => false
                      | some p => decide (p > 0.5)
  if model_threat then true
  else if keyword_match && decide (toxicity_score > 0.3) then true
  else if toxicity_score > 0.8 then true
  else false

/-- `classify_severity` (`predictor_multilingual.py` lines 391-405). -/
def classify_severity (toxicity_score sentiment_score : ℚ) (is_threat : Bool) : String :=
  if is_threat then "critical"
  else if toxicity_score ≥ 0.8 then "critical"
  else if toxicity_score ≥ 0.6 then "high"
  else if toxicity_score ≥ 0.4 then "medium"
  else if toxicity_score ≥ 0.2 then "low"
  else "low"

/-- Python's `round` to an integer: nearest, ties to even. -/
def roundHalfEven (x : ℚ) : ℤ :=
  let f := ⌊x⌋
  let r := x - (f : ℚ)
  if r < 1/2 then f
  else if r > 1/2 then f + 1
  else if f % 2 = 0 then f else f + 1

/-- Python's `round(x, 3)`. -/
def round3 (x : ℚ) : ℚ := (roundHalfEven (x * 1000) : ℚ) / 1000

/-- `round(prob, 3)` applied to every label (lines 433-436). -/
def roundLabels (lp : LabelProbs) : LabelProbs :=
  { toxic := round3 lp.toxic, severe_toxic := round3 lp.severe_toxic,
    obscene := round3 lp.obscene, threat := round3 lp.threat,
    insult := round3 lp.insult, identity_hate := round3 lp.identity_hate }

/-- The `threat_analysis` entry of the details dictionary (lines 442-446). -/
structure ThreatAnalysis where
  detected : Bool
  model_probability : ℚ
  reason : String
deriving DecidableEq, Repr

/-- The `factors` entry of `severity_reasoning` (lines 449-454). -/
structure SeverityFactors where
  toxicity : ℚ
  sentiment : ℚ
  threat : Bool
  threat_probability : ℚ
deriving DecidableEq, Repr

/-- The `details` dictionary built by `predict` (lines 428-456). -/
structure Details where
  language_detection : LangInfo
  toxicity_score : ℚ
  toxicity_level : String
  toxicity_labels : LabelProbs
  sentiment_score : ℚ
  sentiment_label : String
  threat_analysis : ThreatAnalysis
  severity : String
  severity_factors : SeverityFactors
deriving DecidableEq, Repr

/-- The dictionary returned by `predict` (lines 458-466); the response schema
of the `/analyze` endpoint. -/
structure AnalysisResult where
  toxicity_score : ℚ
  sentiment_score : ℚ
  severity : String
  is_threat : Bool
  confidence : ℚ
  detected_language : String
  details : Details
deriving DecidableEq, Repr

/-- `predict` (`predictor_multilingual.py` lines 407-466).  The outcome of
the external statistical language detector, the neural toxicity model's
score vector (or its absence) and the sentiment score computed by
`predict_sentiment` (which returns `0.0` on any of its own failures) enter
as parameters. -/
def predict (dOut : DetectOutcome) (neural : Option (List ℚ))
    (sentiment_score : ℚ) (text : String) : AnalysisResult :=
  let language_info := detect_language dOut text
  let tl := predict_toxicity text (some language_info) neural
  let toxicity_score := tl.1
  let toxicity_labels := tl.2
  let threat_prob := toxicity_labels.threat
  let is_threat := detect_threat text toxicity_score (some threat_prob)
  let severity := classify_severity toxicity_score sentiment_score is_threat
  let confidence := pymax toxicity_score |sentiment_score|
  { toxicity_score := round3 toxicity_score
    sentiment_score := round3 sentiment_score
    severity := severity
    is_threat := is_threat
    confidence := round3 confidence
    detected_language := language_info.language
    details :=
      { language_detection := language_info
        toxicity_score := round3 toxicity_score
        toxicity_level := if toxicity_score > 0.6 then "high"
                          else if toxicity_score > 0.3 then "medium" else "low"
        toxicity_labels := roundLabels toxicity_labels
        sentiment_score := round3 sentiment_score
        sentiment_label := if sentiment_score > 0.2 then "positive"
                           else if sentiment_score < -0.2 then "negative" else "neutral"
        threat_analysis :=
          { detected := is_threat
            model_probability := round3 threat_prob
            reason := if threat_prob > 0.5 then "model_detection"
                      else if is_threat then "keyword_match" else "none" }
        severity := severity
        severity_factors :=
          { toxicity := round3 toxicity_score, sentiment := round3 sentiment_score,
            threat := is_threat, threat_probability := round3 threat_prob } } }

/-- An HTTP error raised by the endpoint (`fastapi.HTTPException`). -/
structure HTTPError where
  status : Nat
  detail : String
deriving DecidableEq, Repr

/-- `analyze_text` (`main.py` lines 75-103).  The body runs inside a
`try` block whose blanket `except Exception` re-raises everything —
including the endpoint's own `HTTPException(400)` — as a 500 whose detail
wraps `str(e)` (for a `fastapi.HTTPException`, `"{status}: {detail}"`). -/
def analyze_text (dOut : DetectOutcome) (neural : Option (List ℚ))
    (sentiment : ℚ) (text : String) : Except HTTPError AnalysisResult :=
  let body : Except HTTPError AnalysisResult :=
    if text = "" ∨ (pyStrip text).length = 0 then
      .error { status := 400, detail := "Text cannot be empty" }
    else
      .ok (predict dOut neural sentiment text)
  match body with
  | .ok r => .ok r
  | .error e =>
    .error { status := 500,
             detail := "Error analyzing text: " ++ toString e.status ++ ": " ++ e.detail }

/-- `get_severity_level` (`bot.py` lines 188-191). -/
def get_severity_level (severity : String) : Nat :=
  let s := strLower severity
  if s = "low" then 1
  else if s = "medium" then 2
  else if s = "high" then 3
  else if s = "critical" then 4
  else 0

/-- The bot's environment-derived moderation configuration
(`bot.py` lines 37-42). -/
structure BotConfig where
  deleteMessages : Bool
  minSeverityToSave : String
  minSeverityToDelete : String
deriving DecidableEq, Repr

/-- `should_save_incident` (`bot.py` lines 193-203). -/
def should_save_incident (cfg : BotConfig) (severity : String) (is_threat : Bool) : Bool :=
  let min_level := get_severity_level cfg.minSeverityToSave
  let severity_level := get_severity_level severity
  if is_threat then true
  else decide (severity_level ≥ min_level)

/-- `should_delete_message` (`bot.py` lines 205-218). -/
def should_delete_message (cfg : BotConfig) (severity : String) (is_threat : Bool) : Bool :=
  if !cfg.deleteMessages then false
  else
    let min_level := get_severity_level cfg.minSeverityToDelete
    let severity_level := get_severity_level severity
    if is_threat then true
    else decide (severity_level ≥ min_level)

/-- The severity scale as the spec writes it. -/
inductive Severity where
  | low
  | medium
  | high
  | critical
deriving DecidableEq, Repr

/-- The string each severity is rendered as in the code. -/
def Severity.name : Severity → String
  | .low => "low"
  | .medium => "medium"
  | .high => "high"
  | .critical => "critical"

/-- Modelled from the spec: the fixed severity ordinal mapping
"low=1, medium=2, high=3, critical=4" used to state the policy claims. -/
def specSeverityOrdinal : Severity → Nat
  | .low => 1
  | .medium => 2
  | .high => 3
  | .critical => 4

/-- C1: for every analysis result and threshold configuration, `isThreat =
true` forces the classified severity to `"critical"`, forces the save
decision to true, and, whenever message deletion is enabled, forces the
delete decision to true — independently of the toxicity score and of the
configured thresholds. -/
theorem c1_threat_invariant (toxicity_score sentiment_score : ℚ) (cfg : BotConfig) :
    classify_severity toxicity_score sentiment_score true = "critical" ∧
    should_save_incident cfg (classify_severity toxicity_score sentiment_score true) true = true ∧
    (cfg.deleteMessages = true →
      should_delete_message cfg (classify_severity toxicity_score sentiment_score true) true = true) := by
  refine ⟨by simp [classify_severity], by simp [should_save_incident], fun h => ?_⟩
  simp [should_delete_message, h]

/-- Witness for C1 at toxicity 0.1, sentiment 0, deletion enabled. -/
theorem c1_threat_invariant_witness :
    should_delete_message
      { deleteMessages := true, minSeverityToSave := "medium", minSeverityToDelete := "critical" }
      (classify_severity 0.1 0 true) true = true :=
  (c1_threat_invariant 0.1 0
    { deleteMessages := true, minSeverityToSave := "medium", minSeverityToDelete := "critical" }).2.2
    rfl

/-- C2: for every severity, threat flag and threshold configuration drawn
from the four severity names, the save decision equals
`isThreat OR ordinal(severity) ≥ ordinal(minSeverityToSave)` and the delete
decision equals
`deleteEnabled AND (isThreat OR ordinal(severity) ≥ ordinal(minSeverityToDelete))`
with the ordinals low=1, medium=2, high=3, critical=4; in particular
severity medium, no threat, thresholds save=medium / delete=critical with
deletion enabled gives save=true and delete=false. -/
theorem c2_policy_threshold_formula :
    (∀ (s tSave tDel : Severity) (b del : Bool),
      should_save_incident
          { deleteMessages := del, minSeverityToSave := tSave.name,
            minSeverityToDelete := tDel.name } s.name b
        = (b || decide (specSeverityOrdinal tSave ≤ specSeverityOrdinal s)) ∧
      should_delete_message
          { deleteMessages := del, minSeverityToSave := tSave.name,
            minSeverityToDelete := tDel.name } s.name b
        = (del && (b || decide (specSeverityOrdinal tDel ≤ specSeverityOrdinal s)))) ∧
    should_save_incident
        { deleteMessages := true, minSeverityToSave := "medium",
          minSeverityToDelete := "critical" } "medium" false = true ∧
    should_delete_message
        { deleteMessages := true, minSeverityToSave := "medium",
          minSeverityToDelete := "critical" } "medium" false = false := by
  refine ⟨?_, by decide, by decide⟩
  intro s tSave tDel b del
  cases s <;> cases tSave <;> cases tDel <;> cases b <;> cases del <;> exact ⟨by decide, by decide⟩

/-- C3: with no threat flag, the severity classifier maps `[0,1]` to the
bands with inclusive lower boundaries (critical iff ≥0.8, high iff
[0.6,0.8), medium iff [0.4,0.6), low iff <0.4), is total on `[0,1]`, is
monotone in the toxicity score, and sends the boundary 0.8 to critical. -/
theorem c3_severity_bands :
    (∀ t s : ℚ, 0 ≤ t → t ≤ 1 →
      ((classify_severity t s false = "critical" ↔ 0.8 ≤ t) ∧
       (classify_severity t s false = "high" ↔ 0.6 ≤ t ∧ t < 0.8) ∧
       (classify_severity t s false = "medium" ↔ 0.4 ≤ t ∧ t < 0.6) ∧
       (classify_severity t s false = "low" ↔ t < 0.4))) ∧
    (∀ t s : ℚ, classify_severity t s false = "low" ∨
      classify_severity t s false = "medium" ∨
      classify_severity t s false = "high" ∨
      classify_severity t s false = "critical") ∧
    (∀ t₁ t₂ s₁ s₂ : ℚ, t₁ ≤ t₂ →
      get_severity_level (classify_severity t₁ s₁ false) ≤
      get_severity_level (classify_severity t₂ s₂ false)) ∧
    (∀ s : ℚ, classify_severity 0.8 s false = "critical") := by
  refine ⟨?_, ?_, ?_, ?_⟩
  · intro t s h0 h1
    unfold classify_severity
    split_ifs with h2 h3 h4 h5 <;>
      refine ⟨?_, ?_, ?_, ?_⟩ <;> simp_all <;> try constructor
    all_goals first
      | linarith
      | (intro h; linarith)
  · intro t s
    unfold classify_severity
    split_ifs <;> simp
  · intro t₁ t₂ s₁ s₂ h
    unfold classify_severity
    split_ifs <;> simp_all [get_severity_level, strLower] <;> linarith
  · intro s
    norm_num [classify_severity]

/-- Witness for C3 at toxicity 0.5. -/
theorem c3_severity_bands_witness : classify_severity 0.5 0 false = "medium" :=
  ((c3_severity_bands.1 0.5 0 (by norm_num) (by norm_num)).2.2.1).mpr (by norm_num)

theorem pymin_eq_min (a b : ℚ) : pymin a b = min a b := by
  rw [pymin, min_def]

theorem pymax_eq_max (a b : ℚ) : pymax a b = max a b := by
  rcases le_total a b with h | h
  · rcases lt_or_eq_of_le h with h' | h'
    · rw [pymax, if_neg (not_le.mpr h'), max_eq_right h]
    · simp [pymax, h']
  · rw [pymax, if_pos h, max_eq_left h]

/-- C6: the lexical toxicity score is `min(0.5 + 0.1 m, 0.9)` for `m > 0`
lexicon matches and `0` for none, where `m` counts the combined-lexicon
keywords contained case-insensitively in the text; in keyword-only mode
(no neural signal) exactly 2 matches give an overall toxicity of 0.7 and
0 matches give 0. -/
theorem c6_lexical_toxicity_formula :
    (∀ text : String, check_keyword_toxicity text =
      (if 0 < countMatches text
       then min (0.5 + (countMatches text : ℚ) * 0.1) 0.9 else 0)) ∧
    (∀ (text : String) (li : Option LangInfo), countMatches text = 2 →
      (predict_toxicity text li none).1 = 0.7) ∧
    (∀ (text : String) (li : Option LangInfo), countMatches text = 0 →
      (predict_toxicity text li none).1 = 0) := by
  refine ⟨?_, ?_, ?_⟩
  · intro text
    rw [check_keyword_toxicity, pymin_eq_min]
  · intro text li h
    unfold predict_toxicity check_keyword_toxicity
    rw [h]
    norm_num [pymin]
  · intro text li h
    unfold predict_toxicity check_keyword_toxicity
    rw [h]
    norm_num [pymin]

/-- Witness for C6: `"kill murder"` has exactly 2 lexicon matches and
scores 0.7 in keyword-only mode; `"hello"` has none and scores 0. -/
theorem c6_lexical_toxicity_formula_witness :
    countMatches "kill murder" = 2 ∧
    (predict_toxicity "kill murder" none none).1 = 0.7 ∧
    countMatches "hello" = 0 ∧
    (predict_toxicity "hello" none none).1 = 0 :=
  ⟨by decide,
   c6_lexical_toxicity_formula.2.1 "kill murder" none (by decide),
   by decide,
   c6_lexical_toxicity_formula.2.2 "hello" none (by decide)⟩

/-- C7: the lexical threat score is computed against the same combined
lexicon as the lexical toxicity score — the concatenation of the English,
Kannada and Hindi keyword lists, not a threat-specific subset — and equals
`min(0.6 + 0.15 m, 1)` when `m > 0` keywords match case-insensitively,
else 0 (`m` being the very same match count the toxicity score uses). -/
theorem c7_threat_score_same_lexicon :
    threat_keywords = threat_keywords_en ++ threat_keywords_kn ++ threat_keywords_hi ∧
    (∀ text : String, check_threat_keywords text =
      (if 0 < countMatches text
       then min (0.6 + (countMatches text : ℚ) * 0.15) 1 else 0)) ∧
    (∀ text : String, check_keyword_toxicity text =
      (if 0 < countMatches text
       then min (0.5 + (countMatches text : ℚ) * 0.1) 0.9 else 0)) := by
  refine ⟨rfl, ?_, ?_⟩
  · intro text
    rw [check_threat_keywords, pymin_eq_min]
  · intro text
    rw [check_keyword_toxicity, pymin_eq_min]

/-- C5: the fused toxicity (the `toxic` entry, `combined_toxicity` in the
source) follows exactly three language-conditioned cases: a present
(positive) neural score with detected language kn or hi is weighted
0.4 neural + 0.6 lexical; a present neural score with language en, mixed or
unknown is weighted 0.7 neural + 0.3 lexical; an absent neural score leaves
the lexical score alone.  At neural 0.9 and lexical 0.5 the fusion gives
0.78 for en and 0.66 for hi. -/
theorem c5_language_conditioned_fusion :
    (∀ (text : String) (li : LangInfo) (scores : List ℚ),
      (li.language = "kn" ∨ li.language = "hi") →
      has_english text = true →
      scores ≠ [] →
      0 < maxListQ scores →
      (predict_toxicity text (some li) (some scores)).2.toxic
        = 0.4 * maxListQ scores + 0.6 * check_keyword_toxicity text) ∧
    (∀ (text : String) (li : LangInfo) (scores : List ℚ),
      (li.language = "en" ∨ li.language = "mixed" ∨ li.language = "unknown") →
      scores ≠ [] →
      0 < maxListQ scores →
      (predict_toxicity text (some li) (some scores)).2.toxic
        = 0.7 * maxListQ scores + 0.3 * check_keyword_toxicity text) ∧
    (∀ (text : String) (li : Option LangInfo),
      (predict_toxicity text li none).2.toxic = check_keyword_toxicity text) ∧
    fuse "en" 0.9 0.5 = 0.78 ∧
    fuse "hi" 0.9 0.5 = 0.66 := by
  refine ⟨?_, ?_, ?_, ?_, ?_⟩
  · intro text li scores hlang hhe hne hpos
    have hg : modelGate text (some li) = true := by simp [modelGate, hhe]
    have hne' : scores.isEmpty = false := by
      cases scores with
      | nil => exact absurd rfl hne
      | cons a t => rfl
    unfold predict_toxicity
    simp only [hg, hne', Bool.not_false, Bool.and_true, if_true]
    rcases hlang with h | h <;> simp [fuse, h, hpos]
  · intro text li scores hlang hne hpos
    have hg : modelGate text (some li) = true := by
      rcases hlang with h | h | h <;> simp [modelGate, h]
    have hne' : scores.isEmpty = false := by
      cases scores with
      | nil => exact absurd rfl hne
      | cons a t => rfl
    unfold predict_toxicity
    simp only [hg, hne', Bool.not_false, Bool.and_true, if_true]
    have hnot : ¬(li.language = "kn" ∨ li.language = "hi") := by
      rcases hlang with h | h | h <;> simp [h]
    simp [fuse, hnot, hpos]
  · intro text li
    rfl
  · unfold fuse
    rw [if_neg (by decide)]
    norm_num
  · unfold fuse
    rw [if_pos (by decide)]
    norm_num

/-- Witness for C5: English text `"kill"` with detected language kn and a
single neural score 0.9 fuses to `0.4 × 0.9 + 0.6 × 0.6 = 0.72`. -/
theorem c5_language_conditioned_fusion_witness :
    (predict_toxicity "kill"
        (some { language := "kn", confidence := 0.7, primary_language := "kn",
                mixed_languages := ["kn"] })
        (some [0.9])).2.toxic = 0.72 := by
  have h := c5_language_conditioned_fusion.1 "kill"
    { language := "kn", confidence := 0.7, primary_language := "kn", mixed_languages := ["kn"] }
    [0.9] (Or.inl rfl) (by decide) (by simp) (by norm_num [maxListQ])
  rw [h]
  have hc : countMatches "kill" = 1 := by decide
  unfold check_keyword_toxicity
  rw [hc]
  norm_num [maxListQ, pymin]

/-- C4 as stated is false: in the keyword-only fallback the returned score
is `min(fused, 1)` and can be strictly below the derived threat label —
for the text `"kill"` (one lexicon match, no neural model) the score is 0.6
while the threat label is 0.75. -/
theorem c4_overall_score_counterexample :
    (predict_toxicity "kill" none none).1
      ≠ min (max ((predict_toxicity "kill" none none).2.toxic)
             (labelMax (predict_toxicity "kill" none none).2)) 1 := by
  have hc : countMatches "kill" = 1 := by decide
  have hk : check_keyword_toxicity "kill" = 0.6 := by
    unfold check_keyword_toxicity; rw [hc]; norm_num [pymin]
  have ht : check_threat_keywords "kill" = 0.75 := by
    unfold check_threat_keywords; rw [hc]; norm_num [pymin]
  unfold predict_toxicity
  rw [hk, ht]
  norm_num [fallbackLabels, labelMax, pymin, pymax]

/-- C4 amended: the overall toxicity equals
`min(max(fusedToxicity, max derived label score), 1)` in the neural path,
but in the keyword-only fallback it equals `min(fusedToxicity, 1)` and is
not lifted to the derived label scores. -/
theorem c4_overall_score_amended :
    (∀ (text : String) (li : Option LangInfo) (scores : List ℚ),
      modelGate text li = true →
      scores ≠ [] →
      (predict_toxicity text li (some scores)).1
        = min (max ((predict_toxicity text li (some scores)).2.toxic)
               (labelMax (predict_toxicity text li (some scores)).2)) 1) ∧
    (∀ (text : String) (li : Option LangInfo),
      (predict_toxicity text li none).1
        = min ((predict_toxicity text li none).2.toxic) 1) := by
  constructor
  · intro text li scores hg hne
    have hne' : scores.isEmpty = false := by
      cases scores with
      | nil => exact absurd rfl hne
      | cons a t => rfl
    unfold predict_toxicity
    simp only [hg, hne', Bool.not_false, Bool.and_true, if_true]
    rw [pymin_eq_min, pymax_eq_max]
  · intro text li
    rw [← pymin_eq_min]
    rfl

/-- Witness for C4 (amended) on the neural path at text `"kill"`, one
neural score 0.9. -/
theorem c4_overall_score_amended_witness :
    (predict_toxicity "kill" none (some [0.9])).1
      = min (max ((predict_toxicity "kill" none (some [0.9])).2.toxic)
             (labelMax (predict_toxicity "kill" none (some [0.9])).2)) 1 :=
  c4_overall_score_amended.1 "kill" none [0.9] (by decide) (by simp)

theorem predict_is_threat_eq (dOut : DetectOutcome) (neural : Option (List ℚ))
    (sentiment : ℚ) (text : String) :
    (predict dOut neural sentiment text).is_threat
      = detect_threat text
          (predict_toxicity text (some (detect_language dOut text)) neural).1
          (some (predict_toxicity text (some (detect_language dOut text)) neural).2.threat) :=
  rfl

theorem predict_severity_eq (dOut : DetectOutcome) (neural : Option (List ℚ))
    (sentiment : ℚ) (text : String) :
    (predict dOut neural sentiment text).severity
      = classify_severity
          (predict_toxicity text (some (detect_language dOut text)) neural).1
          sentiment
          (detect_threat text
            (predict_toxicity text (some (detect_language dOut text)) neural).1
            (some (predict_toxicity text (some (detect_language dOut text)) neural).2.threat)) :=
  rfl

theorem check_threat_gt_half (text : String) (h : 0 < countMatches text) :
    check_threat_keywords text > 0.5 := by
  have hm : (1 : ℚ) ≤ (countMatches text : ℚ) := by exact_mod_cast h
  unfold check_threat_keywords
  rw [if_pos h]
  unfold pymin
  split_ifs <;> linarith

/-- C10: in keyword-only mode (no neural toxicity signal) any text with at
least one lexicon match is labelled a threat with severity critical — a
single match already gives a threat label of 0.75 (above the 0.5
model-threat cut) and a lexical toxicity of 0.6 — so severities low,
medium and high are unreachable for matched text in this mode. -/
theorem c10_keyword_mode_critical :
    (∀ (text : String) (dOut : DetectOutcome) (sentiment : ℚ),
      0 < countMatches text →
      (predict dOut none sentiment text).is_threat = true ∧
      (predict dOut none sentiment text).severity = "critical") ∧
    (∀ (text : String) (li : Option LangInfo),
      countMatches text = 1 →
      (predict_toxicity text li none).2.threat = 0.75 ∧
      (predict_toxicity text li none).1 = 0.6) := by
  constructor
  · intro text dOut sentiment h
    have hthreat := check_threat_gt_half text h
    have hfall : (predict_toxicity text (some (detect_language dOut text)) none).2.threat
        = check_threat_keywords text := rfl
    have hdt : detect_threat text
        (predict_toxicity text (some (detect_language dOut text)) none).1
        (some (predict_toxicity text (some (detect_language dOut text)) none).2.threat)
        = true := by
      rw [hfall]
      unfold detect_threat
      simp [hthreat]
    refine ⟨?_, ?_⟩
    · rw [predict_is_threat_eq, hdt]
    · rw [predict_severity_eq, hdt]
      simp [classify_severity]
  · intro text li h
    have hfall : (predict_toxicity text li none).2.threat = check_threat_keywords text := rfl
    have hfall1 : (predict_toxicity text li none).1 = pymin (check_keyword_toxicity text) 1 := rfl
    constructor
    · rw [hfall]
      unfold check_threat_keywords
      rw [h]
      norm_num [pymin]
    · rw [hfall1]
      unfold check_keyword_toxicity
      rw [h]
      norm_num [pymin]

/-- Witness for C10 on the single-match text `"kill"`. -/
theorem c10_keyword_mode_critical_witness :
    (predict (.ok "en") none 0 "kill").is_threat = true ∧
    (predict (.ok "en") none 0 "kill").severity = "critical" :=
  c10_keyword_mode_critical.1 "kill" (.ok "en") 0 (by decide)

/-- C8: the endpoint rejects empty and whitespace-only input before any
signal computation and completes with `ok (predict …)` on every other
input; but the rejection surfaces as HTTP 500 (the blanket
`except Exception` re-wraps the endpoint's own `HTTPException(400)`), not
as the 400 validation error the code itself raises. -/
theorem c8_empty_input_rewrapped_as_500 :
    analyze_text .langDetectError none 0 ""
      = .error { status := 500, detail := "Error analyzing text: 400: Text cannot be empty" } ∧
    analyze_text .langDetectError none 0 "   "
      = .error { status := 500, detail := "Error analyzing text: 400: Text cannot be empty" } ∧
    (∀ (dOut : DetectOutcome) (neural : Option (List ℚ)) (sentiment : ℚ) (text : String),
      ¬(text = "" ∨ (pyStrip text).length = 0) →
      analyze_text dOut neural sentiment text = .ok (predict dOut neural sentiment text)) := by
  refine ⟨?_, ?_, ?_⟩
  · unfold analyze_text
    rw [if_pos (by decide : ("" : String) = "" ∨ (pyStrip "").length = 0)]
    have : "Error analyzing text: " ++ toString (400:Nat) ++ ": " ++ "Text cannot be empty"
        = "Error analyzing text: 400: Text cannot be empty" := by decide
    simp only [this]
  · unfold analyze_text
    rw [if_pos (by decide : ("   " : String) = "" ∨ (pyStrip "   ").length = 0)]
    have : "Error analyzing text: " ++ toString (400:Nat) ++ ": " ++ "Text cannot be empty"
        = "Error analyzing text: 400: Text cannot be empty" := by decide
    simp only [this]
  · intro dOut neural sentiment text h
    unfold analyze_text
    rw [if_neg h]

/-- Witness for C8's completeness part at the non-empty text `"kill"`. -/
theorem c8_empty_input_rewrapped_as_500_witness :
    analyze_text .langDetectError none 0 "kill"
      = .ok (predict .langDetectError none 0 "kill") :=
  c8_empty_input_rewrapped_as_500.2.2 .langDetectError none 0 "kill" (by decide)

/-- C9: the language identifier always returns a result whose confidence is
a fixed constant per path — 0.8 whenever the statistical detector
succeeded, 0.7 on the script-range fallback when any script (Kannada,
Devanagari or Latin) is present (including the mixed cases), 0.5 on the
fallback with no recognizable script (language `"unknown"`), and 0.0
exactly on total failure. -/
theorem c9_language_confidence_paths :
    (∀ (code text : String), (detect_language (.ok code) text).confidence = 0.8) ∧
    (∀ text : String,
      (detect_language .langDetectError text).confidence
        = (if has_kannada text || has_hindi text || has_english text then 0.7 else 0.5)) ∧
    (∀ text : String,
      (has_kannada text || has_hindi text || has_english text) = false →
      (detect_language .langDetectError text).language = "unknown") ∧
    (∀ text : String, detect_language .otherError text
        = { language := "unknown", confidence := 0, primary_language := "unknown",
            mixed_languages := [] }) ∧
    (∀ (outcome : DetectOutcome) (text : String),
      (detect_language outcome text).confidence = 0 → outcome = .otherError) := by
  refine ⟨?_, ?_, ?_, ?_, ?_⟩
  · intro code text
    simp only [detect_language]
    split_ifs <;> rfl
  · intro text
    simp only [detect_language]
    cases hK : has_kannada text <;> cases hH : has_hindi text <;>
      cases hE : has_english text <;> simp [hK, hH, hE]
  · intro text h
    simp only [Bool.or_eq_false_iff] at h
    simp only [detect_language]
    simp [h.1.1, h.1.2, h.2]
  · intro text
    norm_num [detect_language]
  · intro outcome text h
    cases outcome with
    | ok code =>
      simp only [detect_language] at h
      split_ifs at h <;> norm_num at h
    | langDetectError =>
      simp only [detect_language] at h
      split_ifs at h <;> norm_num at h
    | otherError => rfl

/-- Witness for C9: no script in `"123"` gives language unknown on the
fallback path, and confidence 0 pins the total-failure outcome. -/
theorem c9_language_confidence_paths_witness :
    (detect_language .langDetectError "123").language = "unknown" ∧
    DetectOutcome.otherError = DetectOutcome.otherError :=
  ⟨c9_language_confidence_paths.2.2.1 "123" (by decide),
   c9_language_confidence_paths.2.2.2.2 .otherError "abc" (by norm_num [detect_language])⟩

end CalmCyberZone
